import Mathlib

/-!
Verification of the Keyrunes Python SDK against its specification.

The repository ships only the test suite and example scripts for the SDK;
the implementation modules (keyrunes_sdk/client.py, decorators.py,
models.py, config.py, exceptions.py) are not present.  Every operational
definition below is therefore modelled from the specification (spec.md),
faithful to its words, and cross-checked against the behaviour pinned down
by the test suite under src/tests/.
-/

namespace Keyrunes

/-- Modelled from the spec: the User value object of models.py (absent from
src): id, username, email, ordered groups, is_active (default true),
is_admin (default false). -/
structure User where
  id : String
  username : String
  email : String
  groups : List String := []
  is_active : Bool := true
  is_admin : Bool := false
deriving DecidableEq, Repr

/-- Modelled from the spec: the Token value object of models.py (absent from
src): access_token required, token_type default "bearer", optional
expires_in, optional embedded User. -/
structure Token where
  access_token : String
  token_type : String := "bearer"
  expires_in : Option Nat := none
  user : Option User := none
deriving DecidableEq, Repr

/-- Modelled from the spec: the GroupCheck value object of models.py (absent
from src): user_id, group_id, has_access boolean. -/
structure GroupCheck where
  user_id : String
  group_id : String
  has_access : Bool
deriving DecidableEq, Repr

/-- Modelled from the spec: the error taxonomy of exceptions.py (absent from
src): AuthenticationError (401), AuthorizationError (403),
UserNotFoundError (404), NetworkError (transport failure), and a generic
service error carrying the status for other non-2xx responses. -/
inductive KeyrunesError where
  | authenticationError
  | authorizationError
  | userNotFoundError
  | networkError
  | serviceError (status : Nat)
deriving DecidableEq, Repr

/-- Modelled from the spec: the observable outcome of one HTTP exchange as
seen by client.py (absent from src): either a response with a status code
and a decoded body, or a transport-level failure (connection refused,
timeout, DNS failure). -/
inductive HttpOutcome (α : Type) where
  | response (status : Nat) (body : α)
  | transportFailure
deriving DecidableEq, Repr

/-- Modelled from the spec: the `_make_request` status mapping of client.py
(absent from src).  2xx decodes and returns the body; 401 raises
AuthenticationError; 403 raises AuthorizationError; 404 raises
UserNotFoundError; a transport failure raises NetworkError; any other
status raises the generic service error. -/
def makeRequest {α : Type} : HttpOutcome α → Except KeyrunesError α
  | .transportFailure => .error .networkError
  | .response status body =>
    if 200 ≤ status ∧ status < 300 then .ok body
    else if status = 401 then .error .authenticationError
    else if status = 403 then .error .authorizationError
    else if status = 404 then .error .userNotFoundError
    else .error (.serviceError status)

/-- Modelled from the spec: `has_group` of client.py (absent from src).  It
issues the membership-check request for (user_id, group_id), returns the
`has_access` boolean of a successful response, and recovers a
UserNotFoundError locally as `false` instead of propagating it; every
other error propagates.  The remote service is abstracted as a function
from (user_id, group_id) to the HTTP outcome. -/
def has_group (service : String → String → HttpOutcome GroupCheck)
    (user_id group_id : String) : Except KeyrunesError Bool :=
  match makeRequest (service user_id group_id) with
  | .ok body => .ok body.has_access
  | .error .userNotFoundError => .ok false
  | .error e => .error e

/-- Modelled from the spec: a raw wire object for a user as decoded from a
JSON response, the input of `_normalize_user` of client.py (absent from
src).  It may carry an `id` and/or an `external_id`, a groups list, and
may explicitly carry an `is_admin` flag. -/
structure RawUser where
  idField : Option String := none
  external_id : Option String := none
  username : String
  email : String
  groups : List String := []
  is_adminField : Option Bool := none
deriving DecidableEq, Repr

/-- Modelled from the spec: `_normalize_user` of client.py (absent from
src).  Given a raw object with either `id` or `external_id`, it produces a
User, preferring `id`; is_admin is true if "admins" appears in the groups
list, else as explicitly provided by the payload (defaulting to false). -/
def normalize_user (raw : RawUser) : User :=
  { id := (raw.idField.orElse fun _ => raw.external_id).getD ""
    username := raw.username
    email := raw.email
    groups := raw.groups
    is_admin := if raw.groups.contains "admins" then true
                else raw.is_adminField.getD false }

/-- Modelled from the spec: the decoded body of a login response as consumed
by `_parse_token_response` of client.py (absent from src).  The service
answers in one of two wire shapes: one keyed `token`, the other keyed
`access_token` with `token_type` and `expires_in`; either may embed a
`user` object. -/
structure TokenPayload where
  tokenField : Option String := none
  access_token : Option String := none
  token_type : Option String := none
  expires_in : Option Nat := none
  userField : Option RawUser := none
deriving DecidableEq, Repr

/-- Modelled from the spec: `_parse_token_response` of client.py (absent
from src).  A payload keyed `token` yields a Token whose access_token is
that value; otherwise a payload keyed `access_token` yields a Token
carrying the given token_type (default "bearer") and expires_in; a payload
with neither key fails. -/
def parse_token_response (payload : TokenPayload) : Option Token :=
  let u := payload.userField.map normalize_user
  match payload.tokenField with
  | some t => some { access_token := t, user := u }
  | none =>
    match payload.access_token with
    | some a =>
      some { access_token := a
             token_type := payload.token_type.getD "bearer"
             expires_in := payload.expires_in
             user := u }
    | none => none

/-- Modelled from the spec: the mutable state of a KeyrunesClient of
client.py (absent from src): base URL, optional API key, timeout (default
30), and the current bearer token (initially absent). -/
structure ClientState where
  base_url : String
  api_key : Option String := none
  timeout : Nat := 30
  tokenField : Option String := none
deriving DecidableEq, Repr

/-- Modelled from the spec: `login` of client.py (absent from src).  It
POSTs credentials, parses the response body into a Token, and
unconditionally stores the resulting access token as the client's current
authentication state; a body in neither wire shape fails.  The network
round trip is abstracted by passing the decoded response body. -/
def login (c : ClientState) (resp : TokenPayload) : Option (Token × ClientState) :=
  match parse_token_response resp with
  | none => none
  | some tok => some (tok, { c with tokenField := some tok.access_token })

/-- Modelled from the spec: the client as seen by the decorators of
decorators.py (absent from src).  `cid` is the object identity of the
client instance; `hasGroup` and `getUser` abstract the two client calls a
guard may issue. -/
structure ClientModel where
  cid : Nat
  hasGroup : String → String → Bool
  getUser : String → Except KeyrunesError User

/-- Modelled from the spec: client resolution of decorators.py (absent from
src).  Precedence is the explicit `client` argument given at decoration,
then a `client` keyword supplied at call time, then the process-wide
global client. -/
def resolveClient (decoClient kwClient globalClient : Option ClientModel) :
    Option ClientModel :=
  match decoClient with
  | some c => some c
  | none =>
    match kwClient with
    | some c => some c
    | none => globalClient

/-- Modelled from the spec: the all_groups=true membership loop of
`require_group` of decorators.py (absent from src).  It walks the declared
group ids in order, recording each `has_group` call as a trace entry
(client id, user id, group id), and stops at the first group reporting
false, returning it; `none` means every group reported true. -/
def checkGroupsAll (c : ClientModel) (uid : String) :
    List String → List (Nat × String × String) × Option String
  | [] => ([], none)
  | g :: rest =>
    if c.hasGroup uid g then
      let r := checkGroupsAll c uid rest
      ((c.cid, uid, g) :: r.1, r.2)
    else ([(c.cid, uid, g)], some g)

/-- Modelled from the spec: the all_groups=false membership loop of
`require_group` of decorators.py (absent from src).  It walks the declared
group ids in order, recording each `has_group` call, and stops at the
first group reporting true; the boolean is whether any group reported
true. -/
def checkGroupsAny (c : ClientModel) (uid : String) :
    List String → List (Nat × String × String) × Bool
  | [] => ([], false)
  | g :: rest =>
    if c.hasGroup uid g then ([(c.cid, uid, g)], true)
    else
      let r := checkGroupsAny c uid rest
      ((c.cid, uid, g) :: r.1, r.2)

/-- Modelled from the spec: the outcome of one guarded invocation in
decorators.py (absent from src).  The authz constructors stand for
AuthorizationError with the message the tests pin down (naming the missing
group, all checked groups, or the missing admin privilege); the config
constructors stand for the ValueError raised on a missing client
("KeyrunesClient not provided") or missing subject id ("User ID not
found"); clientError is an error of the client propagated unchanged. -/
inductive GuardOutcome (α : Type) where
  | ok (a : α)
  | authzMissingGroup (uid g : String)
  | authzNotInGroups (uid : String) (gs : List String)
  | authzNotAdmin (uid : String)
  | configClientNotProvided
  | configUserIdNotFound
  | clientError (e : KeyrunesError)
deriving DecidableEq, Repr

/-- Modelled from the spec: whether a guard outcome is an
AuthorizationError (a denied request). -/
def GuardOutcome.isAuthorizationError {α : Type} : GuardOutcome α → Bool
  | .authzMissingGroup _ _ => true
  | .authzNotInGroups _ _ => true
  | .authzNotAdmin _ => true
  | _ => false

/-- Modelled from the spec: whether a guard outcome is a configuration
error (a programming/setup mistake, raised as ValueError), distinct from
an AuthorizationError. -/
def GuardOutcome.isConfigError {α : Type} : GuardOutcome α → Bool
  | .configClientNotProvided => true
  | .configUserIdNotFound => true
  | _ => false

/-- Modelled from the spec: one invocation of a function wrapped by
`require_group` of decorators.py (absent from src).  Resolve a client
(explicit argument, call-time keyword, global) — failing with the
configuration error if none resolves — then the subject id, then check the
declared groups in order; on success invoke the wrapped function `f` with
the resolved subject id and return its result unchanged.  The second
component is the trace of `has_group` calls issued. -/
def require_group_invoke {α : Type} (group_ids : List String)
    (decoClient : Option ClientModel) (all_groups : Bool)
    (kwClient globalClient : Option ClientModel)
    (uid? : Option String) (f : String → α) :
    GuardOutcome α × List (Nat × String × String) :=
  match resolveClient decoClient kwClient globalClient with
  | none => (.configClientNotProvided, [])
  | some c =>
    match uid? with
    | none => (.configUserIdNotFound, [])
    | some uid =>
      if all_groups then
        let r := checkGroupsAll c uid group_ids
        match r.2 with
        | some g => (.authzMissingGroup uid g, r.1)
        | none => (.ok (f uid), r.1)
      else
        let r := checkGroupsAny c uid group_ids
        if r.2 then (.ok (f uid), r.1)
        else (.authzNotInGroups uid group_ids, r.1)

/-- Modelled from the spec: one invocation of a function wrapped by
`require_admin` of decorators.py (absent from src).  Resolve a client and
subject id as for `require_group`, call `client.get_user(subject_id)`
(propagating its errors unchanged), deny with AuthorizationError when the
resolved User's is_admin flag is false, else invoke the wrapped function.
The second component is the trace of `get_user` calls issued. -/
def require_admin_invoke {α : Type}
    (decoClient kwClient globalClient : Option ClientModel)
    (uid? : Option String) (f : String → α) :
    GuardOutcome α × List (Nat × String) :=
  match resolveClient decoClient kwClient globalClient with
  | none => (.configClientNotProvided, [])
  | some c =>
    match uid? with
    | none => (.configUserIdNotFound, [])
    | some uid =>
      match c.getUser uid with
      | .error e => (.clientError e, [(c.cid, uid)])
      | .ok u =>
        if u.is_admin then (.ok (f uid), [(c.cid, uid)])
        else (.authzNotAdmin uid, [(c.cid, uid)])

/-- Modelled from the spec: the local validation constraints of the
UserRegistration model of models.py (absent from src): username length
between 3 and 50 characters, password length at least 8, and a well-formed
email address.  The email-format validator is supplied by an external
validation library (out of scope in the spec), abstracted here as the
predicate `emailOk`. -/
def registrationValid (emailOk : String → Bool)
    (username email password : String) : Bool :=
  decide (3 ≤ username.length) && decide (username.length ≤ 50) &&
    decide (8 ≤ password.length) && emailOk email

/-- Modelled from the spec: the outcome of `register_user` of client.py
(absent from src): either the local ValidationError of the registration
model, or the User mapped from the service response. -/
inductive RegisterResult where
  | validationError
  | ok (u : User)
deriving DecidableEq, Repr

/-- Modelled from the spec: `register_user` of client.py (absent from src).
It first constructs the UserRegistration payload, failing with a local
validation error before any network call when the constraints are
violated; on a valid payload it POSTs the registration and maps the
response's user object into a User through `_normalize_user`.  The network
round trip is abstracted by the raw user object the service answers with;
the boolean records whether the network call was made. -/
def register_user (emailOk : String → Bool)
    (username email password : String) (respUser : RawUser) :
    RegisterResult × Bool :=
  if registrationValid emailOk username email password then
    (.ok (normalize_user respUser), true)
  else (.validationError, false)

/-- Modelled from the spec: the _GlobalConfig instance of config.py (absent
from src).  `oid` is the object identity of the configuration instance;
`heldClient` is the client it holds, absent at process start. -/
structure ConfigObj where
  oid : Nat
  heldClient : Option ClientModel

/-- Modelled from the spec: the process-wide configuration state of
config.py (absent from src): the single module-level _GlobalConfig
instance, created once for the lifetime of the process. -/
structure ProcessState where
  config : ConfigObj

/-- Modelled from the spec: `get_config` of config.py (absent from src).
It returns the module-level configuration instance and leaves the process
state unchanged. -/
def get_config (s : ProcessState) : ConfigObj × ProcessState :=
  (s.config, s)

/-- Modelled from the spec: the configuration operations of config.py
(absent from src) that may be interleaved between calls to
`get_config`. -/
inductive ConfigOp where
  | configureOp (c : ClientModel)
  | setClientOp (c : ClientModel)
  | clearClientOp
  | getConfigOp
  | getGlobalClientOp

/-- Modelled from the spec: the effect of one configuration operation on
the process state.  configure and set_client replace the client held by
the existing configuration instance; clear_global_client resets it to
absent; the read operations leave the state unchanged.  No operation
replaces the configuration instance itself. -/
def applyConfigOp (s : ProcessState) : ConfigOp → ProcessState
  | .configureOp c => ⟨⟨s.config.oid, some c⟩⟩
  | .setClientOp c => ⟨⟨s.config.oid, some c⟩⟩
  | .clearClientOp => ⟨⟨s.config.oid, none⟩⟩
  | .getConfigOp => s
  | .getGlobalClientOp => s

/-- Modelled from the spec: a sequence of configuration operations applied
in order to the process state. -/
def applyConfigOps (s : ProcessState) : List ConfigOp → ProcessState
  | [] => s
  | op :: rest => applyConfigOps (applyConfigOp s op) rest

end Keyrunes

namespace Keyrunes

/-- C1: for every user id and group id, `has_group` returns exactly the
service's `has_access` boolean on a 200 response, and returns `false`
without raising when the request fails with a 404 not-found condition: the
not-found error is recovered locally, never propagated. -/
theorem has_group_returns_access_and_recovers_not_found
    (service : String → String → HttpOutcome GroupCheck)
    (uid gid : String) (body : GroupCheck) :
    (service uid gid = .response 200 body →
      has_group service uid gid = .ok body.has_access) ∧
    (service uid gid = .response 404 body →
      has_group service uid gid = .ok false) := by
  constructor
  · intro h
    simp [has_group, makeRequest, h]
  · intro h
    simp [has_group, makeRequest, h]

/-- C1 witness: `has_group` evaluated at a service answering 200 with
`has_access = true`, and at a service answering 404. -/
theorem has_group_returns_access_and_recovers_not_found_witness :
    has_group (fun _ _ => HttpOutcome.response 200 ⟨"user123", "admins", true⟩)
        "user123" "admins" = .ok true ∧
    has_group (fun _ _ => HttpOutcome.response 404 ⟨"user123", "nonexistent", true⟩)
        "user123" "nonexistent" = .ok false := by
  constructor
  · exact (has_group_returns_access_and_recovers_not_found
      (fun _ _ => HttpOutcome.response 200 ⟨"user123", "admins", true⟩)
      "user123" "admins" ⟨"user123", "admins", true⟩).1 rfl
  · exact (has_group_returns_access_and_recovers_not_found
      (fun _ _ => HttpOutcome.response 404 ⟨"user123", "nonexistent", true⟩)
      "user123" "nonexistent" ⟨"user123", "nonexistent", true⟩).2 rfl

/-- C5: the request path maps every HTTP outcome to exactly one result: a
2xx status returns the decoded body, 401 raises AuthenticationError, 403
raises AuthorizationError, 404 raises UserNotFoundError, and a transport
failure raises NetworkError. -/
theorem makeRequest_status_mapping {α : Type} (status : Nat) (body : α) :
    (200 ≤ status → status < 300 → makeRequest (.response status body) = .ok body) ∧
    makeRequest (.response 401 body) = .error .authenticationError ∧
    makeRequest (.response 403 body) = .error .authorizationError ∧
    makeRequest (.response 404 body) = .error .userNotFoundError ∧
    makeRequest (α := α) .transportFailure = .error .networkError := by
  refine ⟨?_, rfl, rfl, rfl, rfl⟩
  intro h1 h2
  simp [makeRequest, h1, h2]

/-- C5 witness: the status mapping evaluated at status 200 with a concrete
body. -/
theorem makeRequest_status_mapping_witness :
    makeRequest (.response 200 "payload") = .ok "payload" ∧
    makeRequest (.response 401 "payload") = Except.error KeyrunesError.authenticationError := by
  have h := makeRequest_status_mapping 200 "payload"
  exact ⟨h.1 (by decide) (by decide), h.2.1⟩

/-- C6: user normalization prefers the `id` field and falls back to
`external_id`, and the produced User's is_admin is true whenever "admins"
appears in the groups list, else it equals the value explicitly provided
by the payload. -/
theorem normalize_user_id_preference_and_admin (raw : RawUser) :
    (∀ i, raw.idField = some i → (normalize_user raw).id = i) ∧
    (∀ e, raw.idField = none → raw.external_id = some e →
      (normalize_user raw).id = e) ∧
    (raw.groups.contains "admins" = true → (normalize_user raw).is_admin = true) ∧
    (∀ b, raw.groups.contains "admins" = false → raw.is_adminField = some b →
      (normalize_user raw).is_admin = b) := by
  refine ⟨?_, ?_, ?_, ?_⟩
  · intro i hi
    simp [normalize_user, hi, Option.orElse]
  · intro e hn he
    simp [normalize_user, hn, he, Option.orElse]
  · intro h
    show (if raw.groups.contains "admins" = true then true
          else raw.is_adminField.getD false) = true
    rw [if_pos h]
  · intro b hc hb
    show (if raw.groups.contains "admins" = true then true
          else raw.is_adminField.getD false) = b
    rw [hc, hb]
    rfl

/-- C6 witness: normalization evaluated at a raw object carrying only
`external_id` and "admins" among its groups, and at a raw object carrying
`id` and an explicit is_admin value. -/
theorem normalize_user_id_preference_and_admin_witness :
    (normalize_user ⟨none, some "ext-1", "user", "user@example.com", ["admins"], none⟩).id = "ext-1" ∧
    (normalize_user ⟨none, some "ext-1", "user", "user@example.com", ["admins"], none⟩).is_admin = true ∧
    (normalize_user ⟨some "1", none, "testuser", "testuser@example.com", [], some false⟩).id = "1" ∧
    (normalize_user ⟨some "1", none, "testuser", "testuser@example.com", [], some false⟩).is_admin = false :=
  ⟨(normalize_user_id_preference_and_admin
      ⟨none, some "ext-1", "user", "user@example.com", ["admins"], none⟩).2.1 "ext-1" rfl rfl,
   (normalize_user_id_preference_and_admin
      ⟨none, some "ext-1", "user", "user@example.com", ["admins"], none⟩).2.2.1 (by decide),
   (normalize_user_id_preference_and_admin
      ⟨some "1", none, "testuser", "testuser@example.com", [], some false⟩).1 "1" rfl,
   (normalize_user_id_preference_and_admin
      ⟨some "1", none, "testuser", "testuser@example.com", [], some false⟩).2.2.2 false (by decide) rfl⟩

/-- C4: `login` parses either wire shape — a `token` key yields a Token
whose access_token is that value; an `access_token` key yields a Token
carrying the given token_type and expires_in — and in every successful
case the client's stored token equals the returned Token's access_token. -/
theorem login_parses_both_shapes_and_stores_token
    (c : ClientState) (resp : TokenPayload) :
    (∀ t, resp.tokenField = some t →
      ∃ c2, login c resp =
        some (⟨t, "bearer", none, resp.userField.map normalize_user⟩, c2)) ∧
    (∀ a, resp.tokenField = none → resp.access_token = some a →
      ∃ c2, login c resp =
        some (⟨a, resp.token_type.getD "bearer", resp.expires_in,
               resp.userField.map normalize_user⟩, c2)) ∧
    (∀ tok c2, login c resp = some (tok, c2) →
      c2.tokenField = some tok.access_token) := by
  refine ⟨?_, ?_, ?_⟩
  · intro t ht
    exact ⟨{ c with tokenField := some t },
      by simp [login, parse_token_response, ht]⟩
  · intro a hn ha
    exact ⟨{ c with tokenField := some a },
      by simp [login, parse_token_response, hn, ha]⟩
  · intro tok c2 h
    unfold login at h
    cases hp : parse_token_response resp with
    | none => rw [hp] at h; exact absurd h (by simp)
    | some tk =>
      rw [hp] at h
      simp only [Option.some.injEq, Prod.mk.injEq] at h
      rw [← h.2, h.1]

/-- C4 witness: login against the spec's example response body keyed
`access_token` with value "abc" and expires_in 3600 yields that Token and
stores "abc"; a body keyed `token` with value "xyz" yields access_token
"xyz". -/
theorem login_parses_both_shapes_and_stores_token_witness :
    (∃ c2, login ⟨"https://keyrunes.example.com", none, 30, none⟩
        ⟨none, some "abc", some "bearer", some 3600, none⟩ =
      some (⟨"abc", "bearer", some 3600, none⟩, c2)) ∧
    (∃ c2, login ⟨"https://keyrunes.example.com", none, 30, none⟩
        ⟨some "xyz", none, none, none, none⟩ =
      some (⟨"xyz", "bearer", none, none⟩, c2)) ∧
    (⟨"https://keyrunes.example.com", none, 30, some "abc"⟩ : ClientState).tokenField = some "abc" :=
  ⟨(login_parses_both_shapes_and_stores_token
      ⟨"https://keyrunes.example.com", none, 30, none⟩
      ⟨none, some "abc", some "bearer", some 3600, none⟩).2.1 "abc" rfl rfl,
   (login_parses_both_shapes_and_stores_token
      ⟨"https://keyrunes.example.com", none, 30, none⟩
      ⟨some "xyz", none, none, none, none⟩).1 "xyz" rfl,
   (login_parses_both_shapes_and_stores_token
      ⟨"https://keyrunes.example.com", none, 30, none⟩
      ⟨none, some "abc", some "bearer", some 3600, none⟩).2.2
      ⟨"abc", "bearer", some 3600, none⟩
      ⟨"https://keyrunes.example.com", none, 30, some "abc"⟩
      rfl⟩

/-- Helper: when every declared group reports true, the all_groups loop
checks each group once in the declared order and reports no failure. -/
theorem checkGroupsAll_all_true (c : ClientModel) (uid : String)
    (gs : List String) (h : ∀ g ∈ gs, c.hasGroup uid g = true) :
    checkGroupsAll c uid gs = (gs.map fun g => (c.cid, uid, g), none) := by
  induction gs with
  | nil => rfl
  | cons g rest ih =>
    have hg : c.hasGroup uid g = true := h g (List.mem_cons_self g rest)
    have hrest := ih fun x hx => h x (List.mem_cons_of_mem g hx)
    simp [checkGroupsAll, hg, hrest]

/-- Helper: when the groups before `g` report true and `g` reports false,
the all_groups loop checks exactly the prefix up to and including `g` and
reports `g` as the failure. -/
theorem checkGroupsAll_first_false (c : ClientModel) (uid g : String)
    (pre post : List String)
    (hpre : ∀ x ∈ pre, c.hasGroup uid x = true)
    (hg : c.hasGroup uid g = false) :
    checkGroupsAll c uid (pre ++ g :: post) =
      ((pre ++ [g]).map fun x => (c.cid, uid, x), some g) := by
  induction pre with
  | nil => simp [checkGroupsAll, hg]
  | cons p rest ih =>
    have hp : c.hasGroup uid p = true := hpre p (List.mem_cons_self p rest)
    have hrest := ih fun x hx => hpre x (List.mem_cons_of_mem p hx)
    simp [checkGroupsAll, hp, hrest]

/-- Helper: when every declared group reports false, the any-group loop
checks each group once in the declared order and reports no success. -/
theorem checkGroupsAny_all_false (c : ClientModel) (uid : String)
    (gs : List String) (h : ∀ g ∈ gs, c.hasGroup uid g = false) :
    checkGroupsAny c uid gs = (gs.map fun g => (c.cid, uid, g), false) := by
  induction gs with
  | nil => rfl
  | cons g rest ih =>
    have hg : c.hasGroup uid g = false := h g (List.mem_cons_self g rest)
    have hrest := ih fun x hx => h x (List.mem_cons_of_mem g hx)
    simp [checkGroupsAny, hg, hrest]

/-- Helper: when the groups before `g` report false and `g` reports true,
the any-group loop checks exactly the prefix up to and including `g` and
reports success. -/
theorem checkGroupsAny_first_true (c : ClientModel) (uid g : String)
    (pre post : List String)
    (hpre : ∀ x ∈ pre, c.hasGroup uid x = false)
    (hg : c.hasGroup uid g = true) :
    checkGroupsAny c uid (pre ++ g :: post) =
      ((pre ++ [g]).map fun x => (c.cid, uid, x), true) := by
  induction pre with
  | nil => simp [checkGroupsAny, hg]
  | cons p rest ih =>
    have hp : c.hasGroup uid p = false := hpre p (List.mem_cons_self p rest)
    have hrest := ih fun x hx => hpre x (List.mem_cons_of_mem p hx)
    simp [checkGroupsAny, hp, hrest]

/-- C2: with all_groups=true, a guarded invocation checks the declared
groups in order, one `has_group` call per group; when every check reports
true the wrapped function runs on the resolved subject id, and on the
first check reporting false it fails immediately with AuthorizationError
naming that missing group, without evaluating the remaining groups. -/
theorem require_group_all_order_and_short_circuit {α : Type}
    (gs : List String) (c : ClientModel) (kw glob : Option ClientModel)
    (uid : String) (f : String → α) :
    ((∀ g ∈ gs, c.hasGroup uid g = true) →
      require_group_invoke gs (some c) true kw glob (some uid) f =
        (.ok (f uid), gs.map fun g => (c.cid, uid, g))) ∧
    (∀ pre g post, gs = pre ++ g :: post →
      (∀ x ∈ pre, c.hasGroup uid x = true) →
      c.hasGroup uid g = false →
      require_group_invoke gs (some c) true kw glob (some uid) f =
        (.authzMissingGroup uid g, (pre ++ [g]).map fun x => (c.cid, uid, x))) := by
  constructor
  · intro h
    simp [require_group_invoke, resolveClient,
      checkGroupsAll_all_true c uid gs h]
  · intro pre g post hgs hpre hg
    subst hgs
    simp [require_group_invoke, resolveClient,
      checkGroupsAll_first_false c uid g pre post hpre hg]

/-- C2 witness: a guard over ["admins", "verified"] with every check true
runs the wrapped function after checking both groups in order, and with
only "admins" granted it fails naming "verified" after checking exactly
["admins", "verified"]. -/
theorem require_group_all_order_and_short_circuit_witness :
    require_group_invoke ["admins", "verified"]
        (some ⟨0, fun _ _ => true, fun _ => .error .userNotFoundError⟩)
        true none none (some "user123") (fun u => "Sensitive action for " ++ u) =
      (.ok "Sensitive action for user123",
       [(0, "user123", "admins"), (0, "user123", "verified")]) ∧
    require_group_invoke ["admins", "verified"]
        (some ⟨0, fun _ g => g == "admins", fun _ => .error .userNotFoundError⟩)
        true none none (some "user123") (fun u => "Sensitive action for " ++ u) =
      (.authzMissingGroup "user123" "verified",
       [(0, "user123", "admins"), (0, "user123", "verified")]) :=
  ⟨(require_group_all_order_and_short_circuit ["admins", "verified"]
      ⟨0, fun _ _ => true, fun _ => .error .userNotFoundError⟩
      none none "user123" (fun u => "Sensitive action for " ++ u)).1
      (by decide),
   (require_group_all_order_and_short_circuit ["admins", "verified"]
      ⟨0, fun _ g => g == "admins", fun _ => .error .userNotFoundError⟩
      none none "user123" (fun u => "Sensitive action for " ++ u)).2
      ["admins"] "verified" [] rfl (by decide) (by decide)⟩

/-- C8: with all_groups=false, a guarded invocation succeeds as soon as
any one group-membership check reports true, running the wrapped function
without evaluating the remaining groups; if every declared group reports
false it fails with AuthorizationError naming all the groups checked. -/
theorem require_group_any_first_true_or_names_all {α : Type}
    (gs : List String) (c : ClientModel) (kw glob : Option ClientModel)
    (uid : String) (f : String → α) :
    (∀ pre g post, gs = pre ++ g :: post →
      (∀ x ∈ pre, c.hasGroup uid x = false) →
      c.hasGroup uid g = true →
      require_group_invoke gs (some c) false kw glob (some uid) f =
        (.ok (f uid), (pre ++ [g]).map fun x => (c.cid, uid, x))) ∧
    ((∀ g ∈ gs, c.hasGroup uid g = false) →
      require_group_invoke gs (some c) false kw glob (some uid) f =
        (.authzNotInGroups uid gs, gs.map fun g => (c.cid, uid, g))) := by
  constructor
  · intro pre g post hgs hpre hg
    subst hgs
    simp [require_group_invoke, resolveClient,
      checkGroupsAny_first_true c uid g pre post hpre hg]
  · intro h
    simp [require_group_invoke, resolveClient,
      checkGroupsAny_all_false c uid gs h]

/-- C8 witness: a guard over ["admins", "moderators"] with only
"moderators" granted succeeds after checking both groups, and with no
group granted fails naming both declared groups. -/
theorem require_group_any_first_true_or_names_all_witness :
    require_group_invoke ["admins", "moderators"]
        (some ⟨0, fun _ g => g == "moderators", fun _ => .error .userNotFoundError⟩)
        false none none (some "user123") (fun u => "Moderate action for " ++ u) =
      (.ok "Moderate action for user123",
       [(0, "user123", "admins"), (0, "user123", "moderators")]) ∧
    require_group_invoke ["admins", "moderators"]
        (some ⟨0, fun _ _ => false, fun _ => .error .userNotFoundError⟩)
        false none none (some "user123") (fun u => "Moderate action for " ++ u) =
      (.authzNotInGroups "user123" ["admins", "moderators"],
       [(0, "user123", "admins"), (0, "user123", "moderators")]) :=
  ⟨(require_group_any_first_true_or_names_all ["admins", "moderators"]
      ⟨0, fun _ g => g == "moderators", fun _ => .error .userNotFoundError⟩
      none none "user123" (fun u => "Moderate action for " ++ u)).1
      ["admins"] "moderators" [] rfl (by decide) (by decide),
   (require_group_any_first_true_or_names_all ["admins", "moderators"]
      ⟨0, fun _ _ => false, fun _ => .error .userNotFoundError⟩
      none none "user123" (fun u => "Moderate action for " ++ u)).2
      (by decide)⟩

/-- Helper: every `has_group` call recorded by the all_groups loop was
issued against the client it was given. -/
theorem checkGroupsAll_trace_cid (c : ClientModel) (uid : String)
    (gs : List String) :
    ∀ e ∈ (checkGroupsAll c uid gs).1, e.1 = c.cid := by
  induction gs with
  | nil =>
    intro e he
    simp [checkGroupsAll] at he
  | cons g rest ih =>
    intro e he
    by_cases hg : c.hasGroup uid g
    · simp [checkGroupsAll, hg] at he
      rcases he with he | he
      · rw [he]
      · exact ih e he
    · simp [checkGroupsAll, hg] at he
      rw [he]

/-- Helper: every `has_group` call recorded by the any-group loop was
issued against the client it was given. -/
theorem checkGroupsAny_trace_cid (c : ClientModel) (uid : String)
    (gs : List String) :
    ∀ e ∈ (checkGroupsAny c uid gs).1, e.1 = c.cid := by
  induction gs with
  | nil =>
    intro e he
    simp [checkGroupsAny] at he
  | cons g rest ih =>
    intro e he
    by_cases hg : c.hasGroup uid g
    · simp [checkGroupsAny, hg] at he
      rw [he]
    · simp [checkGroupsAny, hg] at he
      rcases he with he | he
      · rw [he]
      · exact ih e he

/-- C3: on every guarded invocation the client resolves with precedence
explicit decoration argument, then call-time `client` keyword, then the
process-wide global client; with an explicit client every issued check
goes to that client, so a configured global client is never consulted; and
when none resolves the guard fails with the configuration error
("KeyrunesClient not provided"), distinct from AuthorizationError,
independently of the wrapped function, which therefore never runs. -/
theorem guard_client_resolution_precedence_and_config_error {α : Type}
    (ec kc : ClientModel) (kw glob : Option ClientModel)
    (gs : List String) (allg : Bool) (uid? : Option String)
    (f : String → α) :
    resolveClient (some ec) kw glob = some ec ∧
    resolveClient none (some kc) glob = some kc ∧
    resolveClient none none glob = glob ∧
    (∀ e ∈ (require_group_invoke gs (some ec) allg kw glob uid? f).2,
      e.1 = ec.cid) ∧
    require_group_invoke gs none allg none none uid? f =
      ((GuardOutcome.configClientNotProvided : GuardOutcome α), []) ∧
    require_admin_invoke none none none uid? f =
      ((GuardOutcome.configClientNotProvided : GuardOutcome α), []) ∧
    GuardOutcome.isConfigError
      (GuardOutcome.configClientNotProvided : GuardOutcome α) = true ∧
    GuardOutcome.isAuthorizationError
      (GuardOutcome.configClientNotProvided : GuardOutcome α) = false := by
  refine ⟨rfl, rfl, rfl, ?_, rfl, rfl, rfl, rfl⟩
  intro e he
  match uid? with
  | none =>
    simp [require_group_invoke, resolveClient] at he
  | some uid =>
    by_cases hall : allg
    · subst hall
      simp only [require_group_invoke, resolveClient] at he
      rcases hr : (checkGroupsAll ec uid gs).2 with _ | g <;>
        rw [hr] at he <;>
        exact checkGroupsAll_trace_cid ec uid gs e he
    · rw [Bool.not_eq_true] at hall
      subst hall
      simp only [require_group_invoke, resolveClient] at he
      by_cases hr : (checkGroupsAny ec uid gs).2 <;>
        simp only [hr, Bool.false_eq_true, if_true, if_false] at he <;>
        exact checkGroupsAny_trace_cid ec uid gs e he

/-- C3 witness: the resolution precedence and the configuration failure
evaluated at concrete clients; the explicit client with identity 1
services the single issued check while distinct keyword and global clients
are configured. -/
theorem guard_client_resolution_precedence_and_config_error_witness :
    resolveClient
        (some ⟨1, fun _ _ => true, fun _ => .error .networkError⟩)
        (some ⟨2, fun _ _ => true, fun _ => .error .networkError⟩)
        (some ⟨3, fun _ _ => true, fun _ => .error .networkError⟩) =
      some ⟨1, fun _ _ => true, fun _ => .error .networkError⟩ ∧
    require_group_invoke ["admins"] none true none none (some "user123")
        (fun u => u) =
      ((GuardOutcome.configClientNotProvided : GuardOutcome String), []) ∧
    require_admin_invoke none none none (some "user123") (fun u => u) =
      ((GuardOutcome.configClientNotProvided : GuardOutcome String), []) ∧
    GuardOutcome.isAuthorizationError
      (GuardOutcome.configClientNotProvided : GuardOutcome String) = false ∧
    ((1 : Nat), ("user123", "admins")).1 = 1 :=
  ⟨(guard_client_resolution_precedence_and_config_error
      ⟨1, fun _ _ => true, fun _ => .error .networkError⟩
      ⟨2, fun _ _ => true, fun _ => .error .networkError⟩
      (some ⟨2, fun _ _ => true, fun _ => .error .networkError⟩)
      (some ⟨3, fun _ _ => true, fun _ => .error .networkError⟩)
      ["admins"] true (some "user123") (fun u : String => u)).1,
   (guard_client_resolution_precedence_and_config_error
      ⟨1, fun _ _ => true, fun _ => .error .networkError⟩
      ⟨2, fun _ _ => true, fun _ => .error .networkError⟩
      none none ["admins"] true (some "user123") (fun u : String => u)).2.2.2.2.1,
   (guard_client_resolution_precedence_and_config_error
      ⟨1, fun _ _ => true, fun _ => .error .networkError⟩
      ⟨2, fun _ _ => true, fun _ => .error .networkError⟩
      none none ["admins"] true (some "user123") (fun u : String => u)).2.2.2.2.2.1,
   (guard_client_resolution_precedence_and_config_error
      ⟨1, fun _ _ => true, fun _ => .error .networkError⟩
      ⟨2, fun _ _ => true, fun _ => .error .networkError⟩
      none none ["admins"] true (some "user123") (fun u : String => u)).2.2.2.2.2.2.2,
   (guard_client_resolution_precedence_and_config_error
      ⟨1, fun _ _ => true, fun _ => .error .networkError⟩
      ⟨2, fun _ _ => true, fun _ => .error .networkError⟩
      (some ⟨2, fun _ _ => true, fun _ => .error .networkError⟩)
      (some ⟨3, fun _ _ => true, fun _ => .error .networkError⟩)
      ["admins"] true (some "user123") (fun u : String => u)).2.2.2.1
      (1, ("user123", "admins")) (by decide)⟩

/-- C7: on every invocation of a function wrapped by require_admin with a
resolved client and subject id, the guard calls get_user exactly once with
the subject id; when the resolved User's is_admin is false it fails with
AuthorizationError independently of the wrapped function; when is_admin is
true it runs the wrapped function on the subject id and returns its result
unchanged; an error raised by the client propagates unchanged. -/
theorem require_admin_checks_once_and_gates_on_is_admin {α : Type}
    (c : ClientModel) (kw glob : Option ClientModel)
    (uid : String) (f : String → α) :
    (require_admin_invoke (some c) kw glob (some uid) f).2 = [(c.cid, uid)] ∧
    (∀ u, c.getUser uid = .ok u → u.is_admin = false →
      (require_admin_invoke (some c) kw glob (some uid) f).1 =
        .authzNotAdmin uid) ∧
    (∀ u, c.getUser uid = .ok u → u.is_admin = true →
      (require_admin_invoke (some c) kw glob (some uid) f).1 = .ok (f uid)) ∧
    (∀ e, c.getUser uid = .error e →
      (require_admin_invoke (some c) kw glob (some uid) f).1 =
        .clientError e) := by
  refine ⟨?_, ?_, ?_, ?_⟩
  · simp only [require_admin_invoke, resolveClient]
    rcases h : c.getUser uid with e | u
    · rfl
    · by_cases hu : u.is_admin <;> simp [hu]
  · intro u h hu
    simp [require_admin_invoke, resolveClient, h, hu]
  · intro u h hu
    simp [require_admin_invoke, resolveClient, h, hu]
  · intro e h
    simp [require_admin_invoke, resolveClient, h]

/-- C7 witness: require_admin evaluated against a client resolving an
admin user, a client resolving a non-admin user, and a client that
raises. -/
theorem require_admin_checks_once_and_gates_on_is_admin_witness :
    (require_admin_invoke
        (some ⟨1, fun _ _ => false,
          fun u => .ok ⟨u, "adminuser", "admin@example.com", ["admins"], true, true⟩⟩)
        none none (some "admin123") (fun u => "Admin action for " ++ u)).2 =
      [(1, "admin123")] ∧
    (require_admin_invoke
        (some ⟨1, fun _ _ => false,
          fun u => .ok ⟨u, "adminuser", "admin@example.com", ["admins"], true, true⟩⟩)
        none none (some "admin123") (fun u => "Admin action for " ++ u)).1 =
      .ok "Admin action for admin123" ∧
    (require_admin_invoke
        (some ⟨1, fun _ _ => false,
          fun u => .ok ⟨u, "testuser", "testuser@example.com", [], true, false⟩⟩)
        none none (some "user123") (fun u => "Admin action for " ++ u)).1 =
      .authzNotAdmin "user123" ∧
    (require_admin_invoke
        (some ⟨1, fun _ _ => false, fun _ => .error .networkError⟩)
        none none (some "user123") (fun u => "Admin action for " ++ u)).1 =
      .clientError .networkError :=
  ⟨(require_admin_checks_once_and_gates_on_is_admin
      ⟨1, fun _ _ => false,
        fun u => .ok ⟨u, "adminuser", "admin@example.com", ["admins"], true, true⟩⟩
      none none "admin123" (fun u => "Admin action for " ++ u)).1,
   (require_admin_checks_once_and_gates_on_is_admin
      ⟨1, fun _ _ => false,
        fun u => .ok ⟨u, "adminuser", "admin@example.com", ["admins"], true, true⟩⟩
      none none "admin123" (fun u => "Admin action for " ++ u)).2.2.1
      ⟨"admin123", "adminuser", "admin@example.com", ["admins"], true, true⟩ rfl rfl,
   (require_admin_checks_once_and_gates_on_is_admin
      ⟨1, fun _ _ => false,
        fun u => .ok ⟨u, "testuser", "testuser@example.com", [], true, false⟩⟩
      none none "user123" (fun u => "Admin action for " ++ u)).2.1
      ⟨"user123", "testuser", "testuser@example.com", [], true, false⟩ rfl rfl,
   (require_admin_checks_once_and_gates_on_is_admin
      ⟨1, fun _ _ => false, fun _ => .error .networkError⟩
      none none "user123" (fun u => "Admin action for " ++ u)).2.2.2
      .networkError rfl⟩

/-- C9: a registration payload with username length below 3 or above 50,
or password length below 8, or a malformed email, fails with the local
validation error before any network call is made; a valid payload is
registered over the network and, with the service echoing the submitted
identity, yields a User whose username and email match the input. -/
theorem register_user_validates_locally_before_network
    (emailOk : String → Bool) (username email password : String)
    (respUser : RawUser) :
    ((username.length < 3 ∨ 50 < username.length ∨
        password.length < 8 ∨ emailOk email = false) →
      register_user emailOk username email password respUser =
        (.validationError, false)) ∧
    (registrationValid emailOk username email password = true →
      respUser.username = username → respUser.email = email →
      ∃ u, register_user emailOk username email password respUser =
        (.ok u, true) ∧ u.username = username ∧ u.email = email) := by
  constructor
  · intro h
    have hv : registrationValid emailOk username email password = false := by
      unfold registrationValid
      rcases h with h | h | h | h
      · have hn : ¬ (3 ≤ username.length) := by omega
        simp [hn]
      · have hn : ¬ (username.length ≤ 50) := by omega
        simp [hn]
      · have hn : ¬ (8 ≤ password.length) := by omega
        simp [hn]
      · simp [h]
    simp [register_user, hv]
  · intro hv hu he
    refine ⟨normalize_user respUser, ?_, ?_, ?_⟩
    · simp [register_user, hv]
    · rw [← hu]; rfl
    · rw [← he]; rfl

/-- C9 witness: a two-character username is rejected locally with no
network call, and the valid payload (testuser, test@example.com,
password123) registers and yields a User echoing that username and
email. -/
theorem register_user_validates_locally_before_network_witness :
    register_user (fun _ => true) "ab" "test@example.com" "password123"
        ⟨some "1", none, "ab", "test@example.com", [], none⟩ =
      (.validationError, false) ∧
    (∃ u, register_user (fun _ => true) "testuser" "test@example.com" "password123"
        ⟨some "1", none, "testuser", "test@example.com", [], none⟩ =
      (.ok u, true) ∧ u.username = "testuser" ∧ u.email = "test@example.com") :=
  ⟨(register_user_validates_locally_before_network (fun _ => true)
      "ab" "test@example.com" "password123"
      ⟨some "1", none, "ab", "test@example.com", [], none⟩).1
      (Or.inl (by decide)),
   (register_user_validates_locally_before_network (fun _ => true)
      "testuser" "test@example.com" "password123"
      ⟨some "1", none, "testuser", "test@example.com", [], none⟩).2
      (by decide) rfl rfl⟩

/-- Helper: no configuration operation replaces the configuration
instance, so its object identity is preserved under any sequence of
operations. -/
theorem applyConfigOps_preserves_oid (ops : List ConfigOp) :
    ∀ s : ProcessState, (applyConfigOps s ops).config.oid = s.config.oid := by
  induction ops with
  | nil => intro s; rfl
  | cons op rest ih =>
    intro s
    rw [applyConfigOps, ih (applyConfigOp s op)]
    cases op <;> rfl

/-- C10: the process holds exactly one configuration instance for its
lifetime: get_config does not change the process state, and two calls to
get_config, interleaved with any sequences of configure, set_client,
clear_global_client, or read operations, return configuration objects
with the same identity. -/
theorem get_config_returns_one_instance (s : ProcessState)
    (ops1 ops2 : List ConfigOp) :
    (get_config s).2 = s ∧
    (get_config (applyConfigOps s ops1)).1.oid =
      (get_config (applyConfigOps s ops2)).1.oid := by
  refine ⟨rfl, ?_⟩
  show (applyConfigOps s ops1).config.oid = (applyConfigOps s ops2).config.oid
  rw [applyConfigOps_preserves_oid ops1 s, applyConfigOps_preserves_oid ops2 s]

end Keyrunes
